import Mathlib

/-!
Verification of the Sales-Training ROI calculator (src/app.py).

The computational core is `SalesROICalculator.calculate_roi` (app.py,
lines 79-120): a straight-line arithmetic pipeline from a
`TrainingParameters` record to an `ROIResults` record, with two guarded
divisions and a Python `int()` truncation for the payback-day count.
We embed the records and the pipeline over exact rationals, and the
stateful method (which assigns `self.parameters` and `self.results`)
as explicit state passing on a calculator-state record.
-/

/-- Input record, mirroring the `TrainingParameters` dataclass
(app.py lines 36-47).  Python `int` fields become `Int` (negatives are
not rejected anywhere), `float` fields become `ℚ`. -/
structure TrainingParameters where
  participants : Int
  cost_per_person : ℚ
  monthly_leads : Int
  current_close_rate : ℚ
  target_close_rate : ℚ
  deal_value : ℚ
  margin_rate : ℚ
  training_days : Int := 3
  daily_rate : ℚ := 400
deriving Repr, DecidableEq

/-- Output record, mirroring the `ROIResults` dataclass
(app.py lines 50-65).  `payback_days` is an `int` in the source. -/
structure ROIResults where
  total_investment : ℚ
  training_costs : ℚ
  opportunity_costs : ℚ
  current_deals : ℚ
  target_deals : ℚ
  additional_deals : ℚ
  monthly_revenue : ℚ
  monthly_margin : ℚ
  annual_margin : ℚ
  roi_percentage : ℚ
  roi_multiple : ℚ
  payback_days : Int
  net_benefit : ℚ
deriving Repr, DecidableEq

/-- Python `int()` applied to a (here: rational) number: truncation
toward zero, as in `payback_days = int(...)` on app.py line 102. -/
def pyInt (q : ℚ) : Int :=
  if 0 ≤ q then ((q.num.natAbs / q.den : Nat) : Int)
  else -((q.num.natAbs / q.den : Nat) : Int)

/-- The formula pipeline of `SalesROICalculator.calculate_roi`
(app.py lines 84-118), with each `let` matching one source line in
source order.  The two divisions on lines 100-101 are guarded by
`total_investment > 0`; line 102 is guarded by `monthly_margin > 0`. -/
def calculate_roi (params : TrainingParameters) : ROIResults :=
  let training_costs : ℚ := (params.participants : ℚ) * params.cost_per_person
  let opportunity_costs : ℚ :=
    (params.participants : ℚ) * (params.training_days : ℚ) * params.daily_rate
  let total_investment : ℚ := training_costs + opportunity_costs
  let current_deals : ℚ := (params.monthly_leads : ℚ) * (params.current_close_rate / 100)
  let target_deals : ℚ := (params.monthly_leads : ℚ) * (params.target_close_rate / 100)
  let additional_deals : ℚ := target_deals - current_deals
  let monthly_revenue : ℚ := additional_deals * params.deal_value
  let monthly_margin : ℚ := monthly_revenue * (params.margin_rate / 100)
  let annual_margin : ℚ := monthly_margin * 12
  let net_benefit : ℚ := annual_margin - total_investment
  let roi_percentage : ℚ :=
    if total_investment > 0 then net_benefit / total_investment * 100 else 0
  let roi_multiple : ℚ :=
    if total_investment > 0 then net_benefit / total_investment else 0
  let payback_days : Int :=
    if monthly_margin > 0 then pyInt (total_investment / monthly_margin * 30) else 0
  { total_investment := total_investment
    training_costs := training_costs
    opportunity_costs := opportunity_costs
    current_deals := current_deals
    target_deals := target_deals
    additional_deals := additional_deals
    monthly_revenue := monthly_revenue
    monthly_margin := monthly_margin
    annual_margin := annual_margin
    roi_percentage := roi_percentage
    roi_multiple := roi_multiple
    payback_days := payback_days
    net_benefit := net_benefit }

/-- The mutable state of a `SalesROICalculator` instance
(app.py lines 71-73): `self.parameters` and `self.results`, both
`Optional` and initialised to `None`. -/
structure CalculatorState where
  parameters : Option TrainingParameters
  results : Option ROIResults
deriving Repr, DecidableEq

/-- A fresh calculator, as built by `__init__` (app.py lines 71-73). -/
def CalculatorState.init : CalculatorState :=
  { parameters := none, results := none }

/-- The method `calculate_roi` as it acts on the instance: it assigns
`self.parameters = params` (line 81), computes the result record,
assigns `self.results` (line 104) and returns it (line 120). -/
def calculate_roi_method (self : CalculatorState) (params : TrainingParameters) :
    CalculatorState × ROIResults :=
  let r := calculate_roi params
  ({ parameters := some params, results := some r }, r)

/-- Division with an explicit zero-divisor check: `none` models the
`ZeroDivisionError` that Python float division would raise on a zero
divisor in the corresponding source expression. -/
def checkedDiv (a b : ℚ) : Option ℚ :=
  if b = 0 then none else some (a / b)

/-- The same pipeline as `calculate_roi`, but with every division of
the source (the four `/ 100` on lines 89, 90, 95, and the guarded
divisions on lines 100-102) routed through `checkedDiv`, so that an
unguarded zero divisor would surface as `none`. -/
def calculate_roi_checked (params : TrainingParameters) : Option ROIResults := do
  let training_costs : ℚ := (params.participants : ℚ) * params.cost_per_person
  let opportunity_costs : ℚ :=
    (params.participants : ℚ) * (params.training_days : ℚ) * params.daily_rate
  let total_investment : ℚ := training_costs + opportunity_costs
  let cc ← checkedDiv params.current_close_rate 100
  let current_deals : ℚ := (params.monthly_leads : ℚ) * cc
  let tc ← checkedDiv params.target_close_rate 100
  let target_deals : ℚ := (params.monthly_leads : ℚ) * tc
  let additional_deals : ℚ := target_deals - current_deals
  let monthly_revenue : ℚ := additional_deals * params.deal_value
  let mr ← checkedDiv params.margin_rate 100
  let monthly_margin : ℚ := monthly_revenue * mr
  let annual_margin : ℚ := monthly_margin * 12
  let net_benefit : ℚ := annual_margin - total_investment
  let roi_percentage : ℚ ←
    if total_investment > 0 then
      (checkedDiv net_benefit total_investment).map (fun q => q * 100)
    else some 0
  let roi_multiple : ℚ ←
    if total_investment > 0 then checkedDiv net_benefit total_investment
    else some 0
  let payback_days : Int ←
    if monthly_margin > 0 then
      (checkedDiv total_investment monthly_margin).map (fun q => pyInt (q * 30))
    else some 0
  pure
    { total_investment := total_investment
      training_costs := training_costs
      opportunity_costs := opportunity_costs
      current_deals := current_deals
      target_deals := target_deals
      additional_deals := additional_deals
      monthly_revenue := monthly_revenue
      monthly_margin := monthly_margin
      annual_margin := annual_margin
      roi_percentage := roi_percentage
      roi_multiple := roi_multiple
      payback_days := payback_days
      net_benefit := net_benefit }

/-- The reference scenario of spec section 8 (the documented default
parameter values). -/
def refParams : TrainingParameters :=
  { participants := 8
    cost_per_person := 3000
    monthly_leads := 150
    current_close_rate := 12
    target_close_rate := 20
    deal_value := 12000
    margin_rate := 25
    training_days := 3
    daily_rate := 400 }

/-- A scenario in which the target close rate is below the current one
(the rates of the reference scenario swapped). -/
def decreaseParams : TrainingParameters :=
  { refParams with current_close_rate := 20, target_close_rate := 12 }

/-- A scenario with negative participants: not rejected by the code,
and driving `total_investment` negative. -/
def negParams : TrainingParameters :=
  { refParams with participants := -1 }

/-- A scenario with zero participants: `total_investment = 0` while the
annual margin stays strictly positive. -/
def zeroParams : TrainingParameters :=
  { refParams with participants := 0 }

/-- A scenario with zero monthly leads and decreasing close rate: the
additional-deals figure is 0, not negative. -/
def zeroLeadParams : TrainingParameters :=
  { decreaseParams with monthly_leads := 0 }

/-! Field-characterisation lemmas: each output field of `calculate_roi`
equals the source expression of the corresponding line, stated over the
fields of the result record.  All hold by unfolding. -/

theorem training_costs_eq (p : TrainingParameters) :
    (calculate_roi p).training_costs = (p.participants : ℚ) * p.cost_per_person := rfl

theorem opportunity_costs_eq (p : TrainingParameters) :
    (calculate_roi p).opportunity_costs =
      (p.participants : ℚ) * (p.training_days : ℚ) * p.daily_rate := rfl

theorem total_investment_eq (p : TrainingParameters) :
    (calculate_roi p).total_investment =
      (calculate_roi p).training_costs + (calculate_roi p).opportunity_costs := rfl

theorem current_deals_eq (p : TrainingParameters) :
    (calculate_roi p).current_deals =
      (p.monthly_leads : ℚ) * (p.current_close_rate / 100) := rfl

theorem target_deals_eq (p : TrainingParameters) :
    (calculate_roi p).target_deals =
      (p.monthly_leads : ℚ) * (p.target_close_rate / 100) := rfl

theorem additional_deals_eq (p : TrainingParameters) :
    (calculate_roi p).additional_deals =
      (calculate_roi p).target_deals - (calculate_roi p).current_deals := rfl

theorem monthly_revenue_eq (p : TrainingParameters) :
    (calculate_roi p).monthly_revenue =
      (calculate_roi p).additional_deals * p.deal_value := rfl

theorem monthly_margin_eq (p : TrainingParameters) :
    (calculate_roi p).monthly_margin =
      (calculate_roi p).monthly_revenue * (p.margin_rate / 100) := rfl

theorem annual_margin_eq (p : TrainingParameters) :
    (calculate_roi p).annual_margin = (calculate_roi p).monthly_margin * 12 := rfl

theorem net_benefit_eq (p : TrainingParameters) :
    (calculate_roi p).net_benefit =
      (calculate_roi p).annual_margin - (calculate_roi p).total_investment := rfl

theorem roi_percentage_eq (p : TrainingParameters) :
    (calculate_roi p).roi_percentage =
      if (calculate_roi p).total_investment > 0 then
        (calculate_roi p).net_benefit / (calculate_roi p).total_investment * 100
      else 0 := rfl

theorem roi_multiple_eq (p : TrainingParameters) :
    (calculate_roi p).roi_multiple =
      if (calculate_roi p).total_investment > 0 then
        (calculate_roi p).net_benefit / (calculate_roi p).total_investment
      else 0 := rfl

theorem payback_days_eq (p : TrainingParameters) :
    (calculate_roi p).payback_days =
      if (calculate_roi p).monthly_margin > 0 then
        pyInt ((calculate_roi p).total_investment / (calculate_roi p).monthly_margin * 30)
      else 0 := rfl

/-- `pyInt` is truncation toward zero: the floor for non-negative
arguments and the ceiling for negative ones. -/
theorem pyInt_trunc (q : ℚ) : pyInt q = if 0 ≤ q then ⌊q⌋ else ⌈q⌉ := by
  unfold pyInt
  split_ifs with h
  · have hnum : (0 : Int) ≤ q.num := Rat.num_nonneg.mpr h
    rw [Rat.floor_def]
    conv_rhs => rw [← Int.natAbs_of_nonneg hnum]
    rw [← Int.natCast_div]
  · have hnum : q.num ≤ 0 := by
      rw [← not_lt]
      intro hc
      exact h (Rat.num_nonneg.mp hc.le)
    have hcast : ((q.num.natAbs : ℤ)) = -q.num := Int.ofNat_natAbs_of_nonpos hnum
    have hceil : ⌈q⌉ = -⌊-q⌋ := by
      conv_lhs => rw [← neg_neg q]
      rw [Int.ceil_neg]
    rw [hceil, Rat.floor_def, Rat.num_neg_eq_neg_num, Rat.den_neg_eq_den, ← hcast,
      ← Int.natCast_div]

/-- Claim C1: every output field of `calculate_roi` satisfies the
section-3 formulas of the spec exactly, with no intermediate rounding. -/
theorem calculate_roi_formulas (p : TrainingParameters) :
    (calculate_roi p).training_costs = (p.participants : ℚ) * p.cost_per_person ∧
    (calculate_roi p).opportunity_costs =
      (p.participants : ℚ) * (p.training_days : ℚ) * p.daily_rate ∧
    (calculate_roi p).total_investment =
      (calculate_roi p).training_costs + (calculate_roi p).opportunity_costs ∧
    (calculate_roi p).current_deals = (p.monthly_leads : ℚ) * p.current_close_rate / 100 ∧
    (calculate_roi p).target_deals = (p.monthly_leads : ℚ) * p.target_close_rate / 100 ∧
    (calculate_roi p).additional_deals =
      (calculate_roi p).target_deals - (calculate_roi p).current_deals ∧
    (calculate_roi p).monthly_revenue =
      (calculate_roi p).additional_deals * p.deal_value ∧
    (calculate_roi p).monthly_margin =
      (calculate_roi p).monthly_revenue * p.margin_rate / 100 ∧
    (calculate_roi p).annual_margin = (calculate_roi p).monthly_margin * 12 ∧
    (calculate_roi p).net_benefit =
      (calculate_roi p).annual_margin - (calculate_roi p).total_investment := by
  refine ⟨rfl, rfl, rfl, ?_, ?_, rfl, rfl, ?_, rfl, rfl⟩ <;>
    simp only [current_deals_eq, target_deals_eq, monthly_margin_eq] <;> ring

/-- Claim C2: whenever the total investment is zero, the guard on
app.py lines 100-101 makes both `roi_percentage` and `roi_multiple`
equal to 0, regardless of the annual margin. -/
theorem roi_zero_when_investment_zero (p : TrainingParameters)
    (h : (calculate_roi p).total_investment = 0) :
    (calculate_roi p).roi_percentage = 0 ∧ (calculate_roi p).roi_multiple = 0 := by
  have hng : ¬ ((calculate_roi p).total_investment > 0) := by
    rw [h]
    exact lt_irrefl 0
  rw [roi_percentage_eq, roi_multiple_eq, if_neg hng, if_neg hng]
  exact ⟨rfl, rfl⟩

/-- Witness for C2: with zero participants the total investment is 0
while the annual margin is strictly positive, and both ROI fields are 0. -/
theorem roi_zero_when_investment_zero_witness :
    (calculate_roi zeroParams).total_investment = 0 ∧
    0 < (calculate_roi zeroParams).annual_margin ∧
    (calculate_roi zeroParams).roi_percentage = 0 ∧
    (calculate_roi zeroParams).roi_multiple = 0 := by
  have h : (calculate_roi zeroParams).total_investment = 0 := by
    norm_num [calculate_roi, zeroParams, refParams]
  refine ⟨h, ?_, roi_zero_when_investment_zero zeroParams h⟩
  norm_num [calculate_roi, zeroParams, refParams]

/-- Claim C3 counterexample: at `negParams` the monthly margin is
positive and the code returns `payback_days = -3` (Python `int()`
truncation of -3.5), while the mathematical floor of the same
quantity is -4, so the claimed floor formula fails on the code. -/
theorem payback_days_floor_counterexample :
    (calculate_roi negParams).monthly_margin > 0 ∧
    (calculate_roi negParams).payback_days ≠
      ⌊(calculate_roi negParams).total_investment /
        (calculate_roi negParams).monthly_margin * 30⌋ := by
  constructor
  · norm_num [calculate_roi, negParams, refParams]
  · norm_num [calculate_roi, negParams, refParams, pyInt]

/-- Claim C3 (amended): when the monthly margin is positive,
`payback_days` is the truncation TOWARD ZERO of
`total_investment / monthly_margin * 30` (floor on non-negative
values, ceiling on negative ones, matching Python `int()`); when the
monthly margin is non-positive, `payback_days = 0`. -/
theorem payback_days_truncation (p : TrainingParameters) :
    (calculate_roi p).payback_days =
      if (calculate_roi p).monthly_margin > 0 then
        (if 0 ≤ (calculate_roi p).total_investment /
              (calculate_roi p).monthly_margin * 30 then
          ⌊(calculate_roi p).total_investment /
            (calculate_roi p).monthly_margin * 30⌋
        else
          ⌈(calculate_roi p).total_investment /
            (calculate_roi p).monthly_margin * 30⌉)
      else 0 := by
  rw [payback_days_eq, pyInt_trunc]

/-- Claim C4: the reference scenario produces exactly the values of
the spec (section 8); the exact ROI percentage is the rational
8300 / 7, which is within 0.01 of the quoted 1185.71. -/
theorem reference_scenario_values :
    (calculate_roi refParams).training_costs = 24000 ∧
    (calculate_roi refParams).opportunity_costs = 9600 ∧
    (calculate_roi refParams).total_investment = 33600 ∧
    (calculate_roi refParams).current_deals = 18 ∧
    (calculate_roi refParams).target_deals = 30 ∧
    (calculate_roi refParams).additional_deals = 12 ∧
    (calculate_roi refParams).monthly_revenue = 144000 ∧
    (calculate_roi refParams).monthly_margin = 36000 ∧
    (calculate_roi refParams).annual_margin = 432000 ∧
    (calculate_roi refParams).net_benefit = 398400 ∧
    (calculate_roi refParams).roi_percentage = 8300 / 7 ∧
    |(calculate_roi refParams).roi_percentage - 118571 / 100| < 1 / 100 ∧
    (calculate_roi refParams).payback_days = 28 := by
  norm_num [calculate_roi, refParams, pyInt, abs]

/-- Claim C5 counterexample: the claim quantifies over every scenario
with a decreased close rate, but with zero monthly leads the
additional-deals figure is 0, not negative. -/
theorem decrease_counterexample :
    zeroLeadParams.target_close_rate < zeroLeadParams.current_close_rate ∧
    ¬ ((calculate_roi zeroLeadParams).additional_deals < 0) := by
  constructor
  · norm_num [zeroLeadParams, decreaseParams, refParams]
  · norm_num [calculate_roi, zeroLeadParams, decreaseParams, refParams]

/-- Claim C5 (amended): for every scenario with positive monthly
leads, positive deal value, positive margin rate and positive total
investment, a target close rate below the current one propagates to a
negative additional-deals figure, negative monthly and annual margin,
and negative ROI percentage, with no error raised (the function is
total by construction). -/
theorem decrease_propagates_negative (p : TrainingParameters)
    (hrate : p.target_close_rate < p.current_close_rate)
    (hleads : 0 < p.monthly_leads)
    (hdeal : 0 < p.deal_value)
    (hmargin : 0 < p.margin_rate)
    (hinv : 0 < (calculate_roi p).total_investment) :
    (calculate_roi p).additional_deals < 0 ∧
    (calculate_roi p).monthly_margin < 0 ∧
    (calculate_roi p).annual_margin < 0 ∧
    (calculate_roi p).roi_percentage < 0 := by
  have hL : (0 : ℚ) < (p.monthly_leads : ℚ) := by exact_mod_cast hleads
  have hadd : (calculate_roi p).additional_deals < 0 := by
    rw [additional_deals_eq, target_deals_eq, current_deals_eq]
    have hfac : (p.monthly_leads : ℚ) * (p.target_close_rate / 100) -
        (p.monthly_leads : ℚ) * (p.current_close_rate / 100) =
        (p.monthly_leads : ℚ) * ((p.target_close_rate - p.current_close_rate) / 100) := by
      ring
    rw [hfac]
    exact mul_neg_of_pos_of_neg hL
      (div_neg_of_neg_of_pos (by linarith) (by norm_num))
  have hrev : (calculate_roi p).monthly_revenue < 0 := by
    rw [monthly_revenue_eq]
    exact mul_neg_of_neg_of_pos hadd hdeal
  have hmm : (calculate_roi p).monthly_margin < 0 := by
    rw [monthly_margin_eq]
    exact mul_neg_of_neg_of_pos hrev (div_pos hmargin (by norm_num))
  have hann : (calculate_roi p).annual_margin < 0 := by
    rw [annual_margin_eq]
    exact mul_neg_of_neg_of_pos hmm (by norm_num)
  have hnet : (calculate_roi p).net_benefit < 0 := by
    rw [net_benefit_eq]
    linarith
  have hroi : (calculate_roi p).roi_percentage < 0 := by
    rw [roi_percentage_eq, if_pos hinv]
    exact mul_neg_of_neg_of_pos (div_neg_of_neg_of_pos hnet hinv) (by norm_num)
  exact ⟨hadd, hmm, hann, hroi⟩

/-- Witness for the amended C5: the reference scenario with the two
close rates swapped meets all the hypotheses, and its ROI percentage
is negative. -/
theorem decrease_propagates_negative_witness :
    decreaseParams.target_close_rate < decreaseParams.current_close_rate ∧
    0 < decreaseParams.monthly_leads ∧
    0 < decreaseParams.deal_value ∧
    0 < decreaseParams.margin_rate ∧
    0 < (calculate_roi decreaseParams).total_investment ∧
    (calculate_roi decreaseParams).roi_percentage < 0 := by
  have h1 : decreaseParams.target_close_rate < decreaseParams.current_close_rate := by
    norm_num [decreaseParams, refParams]
  have h2 : 0 < decreaseParams.monthly_leads := by norm_num [decreaseParams, refParams]
  have h3 : 0 < decreaseParams.deal_value := by norm_num [decreaseParams, refParams]
  have h4 : 0 < decreaseParams.margin_rate := by norm_num [decreaseParams, refParams]
  have h5 : 0 < (calculate_roi decreaseParams).total_investment := by
    norm_num [calculate_roi, decreaseParams, refParams]
  exact ⟨h1, h2, h3, h4, h5,
    (decrease_propagates_negative decreaseParams h1 h2 h3 h4 h5).2.2.2⟩

/-- Claim C6: the formula path is total.  The division-checked variant
of the pipeline, in which an unguarded zero divisor would surface as
`none`, returns `some` of the ordinary result on EVERY input: every
division of the source is guarded, so the error branch is unreachable
and a fully populated result record is always produced. -/
theorem calculate_roi_checked_total (p : TrainingParameters) :
    calculate_roi_checked p = some (calculate_roi p) := by
  have h100 : ((100 : ℚ)) ≠ 0 := by norm_num
  have hc100 : ∀ a : ℚ, checkedDiv a 100 = some (a / 100) := fun a => by
    unfold checkedDiv
    rw [if_neg h100]
  unfold calculate_roi_checked calculate_roi
  simp only [hc100, Option.bind_eq_bind', Option.some_bind']
  by_cases h1 : (p.participants : ℚ) * p.cost_per_person +
      (p.participants : ℚ) * (p.training_days : ℚ) * p.daily_rate > 0 <;>
    by_cases h2 : ((p.monthly_leads : ℚ) * (p.target_close_rate / 100) -
      (p.monthly_leads : ℚ) * (p.current_close_rate / 100)) * p.deal_value *
      (p.margin_rate / 100) > 0
  · have hcT : ∀ a : ℚ, checkedDiv a ((p.participants : ℚ) * p.cost_per_person +
        (p.participants : ℚ) * (p.training_days : ℚ) * p.daily_rate) =
        some (a / ((p.participants : ℚ) * p.cost_per_person +
          (p.participants : ℚ) * (p.training_days : ℚ) * p.daily_rate)) := fun a => by
      unfold checkedDiv
      rw [if_neg (ne_of_gt h1)]
    have hcM : ∀ a : ℚ, checkedDiv a (((p.monthly_leads : ℚ) * (p.target_close_rate / 100) -
        (p.monthly_leads : ℚ) * (p.current_close_rate / 100)) * p.deal_value *
        (p.margin_rate / 100)) =
        some (a / (((p.monthly_leads : ℚ) * (p.target_close_rate / 100) -
          (p.monthly_leads : ℚ) * (p.current_close_rate / 100)) * p.deal_value *
          (p.margin_rate / 100))) := fun a => by
      unfold checkedDiv
      rw [if_neg (ne_of_gt h2)]
    simp only [if_pos h1, if_pos h2, hcT, hcM, Option.map_some',
      Option.bind_eq_bind', Option.some_bind']
    rfl
  · have hcT : ∀ a : ℚ, checkedDiv a ((p.participants : ℚ) * p.cost_per_person +
        (p.participants : ℚ) * (p.training_days : ℚ) * p.daily_rate) =
        some (a / ((p.participants : ℚ) * p.cost_per_person +
          (p.participants : ℚ) * (p.training_days : ℚ) * p.daily_rate)) := fun a => by
      unfold checkedDiv
      rw [if_neg (ne_of_gt h1)]
    simp only [if_pos h1, if_neg h2, hcT, Option.map_some',
      Option.bind_eq_bind', Option.some_bind']
    rfl
  · have hcM : ∀ a : ℚ, checkedDiv a (((p.monthly_leads : ℚ) * (p.target_close_rate / 100) -
        (p.monthly_leads : ℚ) * (p.current_close_rate / 100)) * p.deal_value *
        (p.margin_rate / 100)) =
        some (a / (((p.monthly_leads : ℚ) * (p.target_close_rate / 100) -
          (p.monthly_leads : ℚ) * (p.current_close_rate / 100)) * p.deal_value *
          (p.margin_rate / 100))) := fun a => by
      unfold checkedDiv
      rw [if_neg (ne_of_gt h2)]
    simp only [if_neg h1, if_pos h2, hcM, Option.map_some',
      Option.bind_eq_bind', Option.some_bind']
    rfl
  · simp only [if_neg h1, if_neg h2, Option.map_some',
      Option.bind_eq_bind', Option.some_bind']
    rfl

/-- Claim C7 counterexample: the method DOES mutate state outside its
return value.  Invoking `calculate_roi` on a fresh calculator changes
the instance state: `self.parameters` and `self.results` are assigned
(app.py lines 81 and 104), so the calculator state after the call
differs from the fresh state. -/
theorem calculate_roi_method_mutates_state :
    (calculate_roi_method CalculatorState.init refParams).1 ≠ CalculatorState.init := by
  intro hEq
  have h := congrArg CalculatorState.parameters hEq
  simp [calculate_roi_method, CalculatorState.init] at h

/-- Claim C7 (amended): the method performs no I/O and writes nothing
but its own calculator's two fields — the post-state is exactly
`parameters = some p, results = some (calculate_roi p)` — and the
returned result is a function of the scenario alone, unaffected by
whatever state previous invocations left behind. -/
theorem calculate_roi_method_frame (s : CalculatorState) (p : TrainingParameters) :
    (calculate_roi_method s p).2 = calculate_roi p ∧
    (calculate_roi_method s p).1 =
      { parameters := some p, results := some (calculate_roi p) } :=
  ⟨rfl, rfl⟩

/-- Claim C8: the method is deterministic — two invocations with the
identical scenario yield identical result records, whatever the prior
calculator states, and in particular calling twice in a row on the
same calculator reproduces the first result exactly. -/
theorem calculate_roi_method_deterministic (s t : CalculatorState)
    (p : TrainingParameters) :
    (calculate_roi_method s p).2 = (calculate_roi_method t p).2 ∧
    (calculate_roi_method (calculate_roi_method s p).1 p).2 =
      (calculate_roi_method s p).2 :=
  ⟨rfl, rfl⟩

/-- Claim C9: `roi_percentage` is exactly `roi_multiple * 100` on
every input — both guard on the same condition, and in the unguarded
branch both are computed from the same quotient. -/
theorem roi_percentage_is_multiple_times_100 (p : TrainingParameters) :
    (calculate_roi p).roi_percentage = (calculate_roi p).roi_multiple * 100 := by
  rw [roi_percentage_eq, roi_multiple_eq]
  split_ifs with h
  · rfl
  · norm_num

/-- Claim C10: the zero fallback applies to every non-positive total
investment: the guard on app.py lines 100-101 tests
`total_investment > 0`, so a strictly negative total investment also
yields `roi_percentage = 0` and `roi_multiple = 0`. -/
theorem roi_zero_when_investment_negative (p : TrainingParameters)
    (h : (calculate_roi p).total_investment < 0) :
    (calculate_roi p).roi_percentage = 0 ∧ (calculate_roi p).roi_multiple = 0 := by
  have hng : ¬ ((calculate_roi p).total_investment > 0) := lt_asymm h
  rw [roi_percentage_eq, roi_multiple_eq, if_neg hng, if_neg hng]
  exact ⟨rfl, rfl⟩

/-- Witness for C10: negative participants are not rejected and drive
the total investment strictly negative, with both ROI fields 0. -/
theorem roi_zero_when_investment_negative_witness :
    (calculate_roi negParams).total_investment < 0 ∧
    (calculate_roi negParams).roi_percentage = 0 ∧
    (calculate_roi negParams).roi_multiple = 0 := by
  have h : (calculate_roi negParams).total_investment < 0 := by
    norm_num [calculate_roi, negParams, refParams]
  exact ⟨h, roi_zero_when_investment_negative negParams h⟩
